import Mathlib

/-!
# Derived-State Reconciliation Engine: a shallow embedding

This file embeds the reconciliation core of the project-management
dashboard backend in Lean 4 and settles the specification claims
about it.

Sheet rows are modelled as `List String` (the Google Sheets values API
returns rows of cell strings; a missing cell reads as the empty string,
mirroring the pervasive `row[i] || ""` pattern via `List.getD`).
Dates in the reminder sweep are modelled as integer day numbers at local
midnight, so the millisecond quotient `Math.floor((due - today) / 86400000)`
is exactly integer subtraction.  Fallible JavaScript control flow
(`throw` / `try`-`catch`) is modelled with `Except`.

Sources embedded:
* `backend/controllers/taskController.js` — `recalcProjectProgress`,
  `createTask`, `updateTask` (subtask cascade), row conversions;
* `backend/controllers/projectController.js` — `updateProject`,
  row conversions;
* `backend/automation/reminderJob.js` — `sendTaskReminders`;
* the Interval Overlap Detector of spec section 4.3 (its source file
  `frontend/src/utils/taskOverlap.js` is absent from the snapshot and is
  modelled from the spec where noted).
-/

deriving instance DecidableEq for Except

/-- A sheet row: an ordered list of cell strings. -/
abbrev Row := List String

/-- `row[i] || ""` — a missing or empty cell reads as `""`. -/
def col (r : Row) (i : Nat) : String :=
  r.getD i ""

/-- `(row[i] || dflt)` for a non-empty default: JavaScript `||` falls back
on the empty string as well as on a missing cell. -/
def colD (r : Row) (i : Nat) (dflt : String) : String :=
  if r.getD i "" == "" then dflt else r.getD i ""

/-- `String.prototype.toLowerCase` restricted to ASCII, the only range the
stored status words use.  (Defined over the character list so that the
kernel can evaluate it; the library `String.toLower` is well-founded
recursion and does not reduce.) -/
def lowerChar (c : Char) : Char :=
  if c.toNat ≥ 65 && c.toNat ≤ 90 then Char.ofNat (c.toNat + 32) else c

/-- Case-folding used by every status comparison in the source. -/
def jsToLower (s : String) : String :=
  String.mk (s.data.map lowerChar)

/-- Whitespace test for `String.prototype.trim`. -/
def isSpaceChar (c : Char) : Bool :=
  c == ' ' || c == '\t' || c == '\n' || c == '\r'

/-- `String.prototype.trim`, kernel-reducible. -/
def jsTrim (s : String) : String :=
  String.mk (((s.data.dropWhile isSpaceChar).reverse.dropWhile isSpaceChar).reverse)

/-- `Math.round((completed / total) * 100)` for `0 ≤ completed ≤ total`,
`total ≠ 0`: round half up, computed exactly over naturals. -/
def jsRound100 (completed total : Nat) : Nat :=
  (200 * completed + total) / (2 * total)

/-- Result object of `recalcProjectProgress` (the non-null case). -/
structure RecalcInfo where
  wasJustCompleted : Bool
  projectName : String
  ownerEmail : String
deriving Repr, DecidableEq

/-- `taskController.js` lines 78-83: the rows of the Tasks sheet that belong
to the given project and are main tasks (empty `ParentTaskID`, column 10). -/
def mainTaskRows (projectId : String) (taskRows : List Row) : List Row :=
  taskRows.filter (fun r => col r 1 == projectId && col r 10 == "")

/-- Number of rows whose `Status` (column 8) is `"completed"` case-insensitively. -/
def completedCount (rows : List Row) : Nat :=
  (rows.filter (fun r => jsToLower (col r 8) == "completed")).length

/-- Number of rows whose `Status` (column 8) is `"in progress"` case-insensitively. -/
def inProgressCount (rows : List Row) : Nat :=
  (rows.filter (fun r => jsToLower (col r 8) == "in progress")).length

/-- `taskController.js` lines 72-153, `recalcProjectProgress`.
The function reads the Tasks sheet and the Projects sheet, filters the
project's main tasks, derives status and progress, and rewrites the
project row.  It returns `.ok (none, rows)` for the JavaScript `return null`
path (project not found, sheet untouched).

Note the faithful modelling of the source defect: `progress` is declared
with `const` (line 90) and reassigned on line 112 inside the
all-tasks-completed branch, which in an ES module raises
`TypeError: Assignment to constant variable.` before any write happens;
that branch is therefore an `Except.error`. -/
def recalcProjectProgress (projectId : String) (taskRows projectRows : List Row) :
    Except String (Option RecalcInfo × List Row) :=
  let projectTasks := mainTaskRows projectId taskRows
  let total := projectTasks.length
  let completed := completedCount projectTasks
  let progress := if total == 0 then 0 else jsRound100 completed total
  match projectRows.findIdx? (fun r => r.get? 0 == some projectId) with
  | none =>
    -- project not found — nothing to update (returns null)
    .ok (none, projectRows)
  | some projectIndex =>
    let projRow := projectRows.getD projectIndex []
    let previousStatus := jsToLower (col projRow 6)
    let wasCompleted := completed == total && total != 0
    if wasCompleted && decide (total > 0) then
      -- `updatedStatus = "Completed"; progress = 100;` — but `progress`
      -- is a `const`, so the reassignment throws before the sheet write
      .error "TypeError: Assignment to constant variable."
    else
      let inProgressTasks := inProgressCount projectTasks
      let updatedStatus :=
        if decide (total > 0) && (decide (completed > 0) || decide (inProgressTasks > 0)) then
          "In Progress"
        else
          "Not Started"
      let wasJustCompleted := wasCompleted && previousStatus != "completed"
      let newProjectRow : Row :=
        [col projRow 0, col projRow 1, col projRow 2, col projRow 3,
         col projRow 4, col projRow 5, updatedStatus, toString progress]
      let newRows := projectRows.set projectIndex newProjectRow
      if wasJustCompleted then
        .ok (some { wasJustCompleted := true, projectName := col projRow 1,
                    ownerEmail := col projRow 2 }, newRows)
      else
        .ok (some { wasJustCompleted := false, projectName := "", ownerEmail := "" }, newRows)

/-- Tasks sheet fixture: one main task of project `p1`, already `Completed`. -/
def tasksAllCompleted : List Row :=
  [["t1", "p1", "T", "", "", "", "", "", "Completed", "", ""]]

/-- Projects sheet fixture: project `p1`, previously `In Progress` at 50. -/
def projectsOne : List Row :=
  [["p1", "Proj", "owner@x.com", "", "", "", "In Progress", "50"]]

/-- C1: the claim says that when every main task is Completed the project
row is written with status `"Completed"`, progress `100`, and the call
returns normally.  On the code, that very branch reassigns the `const`
`progress` and throws a `TypeError` before any write: evaluated at a
project whose single main task is `Completed`, `recalcProjectProgress`
raises instead of writing. -/
theorem recalc_allCompleted_throwsTypeError :
    recalcProjectProgress "p1" tasksAllCompleted projectsOne =
      .error "TypeError: Assignment to constant variable." := by
  decide

/-- C7: when no Projects row matches the id, `recalcProjectProgress` raises
no error, writes nothing, and returns the null-like result. -/
theorem recalc_missingProject_noop (projectId : String) (taskRows projectRows : List Row)
    (h : projectRows.findIdx? (fun r => r.get? 0 == some projectId) = none) :
    recalcProjectProgress projectId taskRows projectRows = .ok (none, projectRows) := by
  unfold recalcProjectProgress
  rw [h]

/-- C7 witness: project `zz` matches no row of the fixture store. -/
theorem recalc_missingProject_noop_w :
    recalcProjectProgress "zz" tasksAllCompleted projectsOne = .ok (none, projectsOne) :=
  recalc_missingProject_noop "zz" tasksAllCompleted projectsOne (by decide)

/-- Tasks sheet fixture: one main task of project `p1` with status `Blocked`. -/
def tasksBlocked : List Row :=
  [["t1", "p1", "T", "", "", "", "", "", "Blocked", "", ""]]

/-- C4 counterexample: the claim says the `Not Started` / `0` outcome holds
for *no* project other than those with zero main tasks or all-`NotStarted`
main tasks.  A project whose single main task is `Blocked` also gets
status `"Not Started"` and progress `0` written, refuting the
only-if direction. -/
theorem recalc_notStarted_blocked_cex :
    recalcProjectProgress "p1" tasksBlocked projectsOne =
        .ok (some ⟨false, "", ""⟩,
          [["p1", "Proj", "owner@x.com", "", "", "", "Not Started", "0"]]) ∧
      mainTaskRows "p1" tasksBlocked = tasksBlocked ∧
      col (["t1", "p1", "T", "", "", "", "", "", "Blocked", "", ""] : Row) 8 ≠ "Not Started" := by
  decide

/-- `completedCount rows = 0` iff no row's status is `completed`. -/
theorem completedCount_eq_zero (rows : List Row) :
    completedCount rows = 0 ↔ ∀ r ∈ rows, jsToLower (col r 8) ≠ "completed" := by
  simp [completedCount, List.length_eq_zero, List.filter_eq_nil_iff]

/-- `inProgressCount rows = 0` iff no row's status is `in progress`. -/
theorem inProgressCount_eq_zero (rows : List Row) :
    inProgressCount rows = 0 ↔ ∀ r ∈ rows, jsToLower (col r 8) ≠ "in progress" := by
  simp [inProgressCount, List.length_eq_zero, List.filter_eq_nil_iff]

/-- C4 (amended): for an existing project, a successful
`recalcProjectProgress` writes status `"Not Started"` and progress `0`
exactly when the project has zero main tasks or no main task has status
`Completed` or `In Progress` (case-insensitive).  (Tasks with other
non-started statuses, such as `Blocked`, also land in `Not Started`.) -/
theorem recalc_notStarted_iff (pid : String) (ts ps : List Row) (i : Nat)
    (info : RecalcInfo) (ps' : List Row)
    (hi : ps.findIdx? (fun r => r.get? 0 == some pid) = some i)
    (h : recalcProjectProgress pid ts ps = .ok (some info, ps')) :
    ∃ row : Row, ps' = ps.set i row ∧
      ((row.getD 6 "" = "Not Started" ∧ row.getD 7 "" = "0") ↔
        (mainTaskRows pid ts = [] ∨
          ∀ r ∈ mainTaskRows pid ts,
            jsToLower (col r 8) ≠ "completed" ∧ jsToLower (col r 8) ≠ "in progress")) := by
  simp only [recalcProjectProgress, hi] at h
  split at h
  · exact absurd h (by simp)
  · rename_i hnc
    -- the all-completed flag is false in this branch
    have hw : (completedCount (mainTaskRows pid ts) == (mainTaskRows pid ts).length &&
        (mainTaskRows pid ts).length != 0) = false := by
      by_contra hb
      rw [Bool.not_eq_false] at hb
      apply hnc
      rw [hb, Bool.true_and]
      have h0 : (mainTaskRows pid ts).length ≠ 0 := by
        simpa using ((Bool.and_eq_true _ _).mp hb).2
      simpa using Nat.pos_of_ne_zero h0
    rw [hw, Bool.false_and, if_neg Bool.false_ne_true] at h
    simp only [Except.ok.injEq, Prod.mk.injEq] at h
    obtain ⟨-, hps⟩ := h
    refine ⟨_, hps.symm, ?_⟩
    by_cases hC : (decide ((mainTaskRows pid ts).length > 0) &&
        (decide (completedCount (mainTaskRows pid ts) > 0) ||
         decide (inProgressCount (mainTaskRows pid ts) > 0))) = true
    · -- some main task counts as completed or in progress: "In Progress" is written
      rw [if_pos hC]
      simp only [Bool.and_eq_true, Bool.or_eq_true, decide_eq_true_eq] at hC
      obtain ⟨hlen, hcnt⟩ := hC
      constructor
      · rintro ⟨habs, -⟩
        simp only [List.getD_cons_succ, List.getD_cons_zero] at habs
        exact absurd habs (by decide)
      · rintro (hnil | hall)
        · simp [hnil] at hlen
        · rcases hcnt with hcnt | hcnt
          · have : completedCount (mainTaskRows pid ts) = 0 :=
              (completedCount_eq_zero _).mpr (fun r hr => (hall r hr).1)
            omega
          · have : inProgressCount (mainTaskRows pid ts) = 0 :=
              (inProgressCount_eq_zero _).mpr (fun r hr => (hall r hr).2)
            omega
    · -- no main task counts as completed or in progress: "Not Started" / 0 is written
      rw [if_neg hC]
      simp only [Bool.and_eq_true, Bool.or_eq_true, decide_eq_true_eq, not_and, not_or,
        Nat.pos_iff_ne_zero, not_not, Nat.not_lt, Nat.le_zero] at hC
      by_cases hlen : (mainTaskRows pid ts).length = 0
      · have hnil : mainTaskRows pid ts = [] := List.length_eq_zero.mp hlen
        refine iff_of_true ⟨?_, ?_⟩ (Or.inl hnil)
        · simp only [List.getD_cons_succ, List.getD_cons_zero]
        · simp only [List.getD_cons_succ, List.getD_cons_zero]
          rw [if_pos (by simpa using hlen)]
          decide
      · obtain ⟨hc0, hip0⟩ := hC hlen
        have hdiv : jsRound100 (completedCount (mainTaskRows pid ts))
            (mainTaskRows pid ts).length = 0 := by
          rw [hc0, jsRound100]
          exact Nat.div_eq_of_lt (by omega)
        refine iff_of_true ⟨?_, ?_⟩
          (Or.inr fun r hr =>
            ⟨(completedCount_eq_zero _).mp hc0 r hr, (inProgressCount_eq_zero _).mp hip0 r hr⟩)
        · simp only [List.getD_cons_succ, List.getD_cons_zero]
        · simp only [List.getD_cons_succ, List.getD_cons_zero]
          rw [if_neg (by simpa using hlen), hdiv]
          decide

/-- C4 amended-claim witness: project `p1` with an empty Tasks sheet gets
`Not Started` / `0` written, and the characterisation instantiates. -/
theorem recalc_notStarted_iff_w :
    ∃ row : Row,
      ([["p1", "Proj", "owner@x.com", "", "", "", "Not Started", "0"]] : List Row) =
          projectsOne.set 0 row ∧
        ((row.getD 6 "" = "Not Started" ∧ row.getD 7 "" = "0") ↔
          (mainTaskRows "p1" [] = [] ∨
            ∀ r ∈ mainTaskRows "p1" [],
              jsToLower (col r 8) ≠ "completed" ∧ jsToLower (col r 8) ≠ "in progress")) :=
  recalc_notStarted_iff "p1" [] projectsOne 0 ⟨false, "", ""⟩
    [["p1", "Proj", "owner@x.com", "", "", "", "Not Started", "0"]] (by decide) (by decide)

/-- Replacing a list element by another row when both old and new row fail
the filter predicate leaves the filtered list unchanged. -/
theorem filter_set_of_not (p : Row → Bool) :
    ∀ (l : List Row) (j : Nat) (r r' : Row), l.get? j = some r → p r = false → p r' = false →
      (l.set j r').filter p = l.filter p := by
  intro l
  induction l with
  | nil =>
    intro j r r' hj _ _
    simp at hj
  | cons a t ih =>
    intro j r r' hj hr hr'
    cases j with
    | zero =>
      obtain rfl : a = r := by simpa using hj
      simp [List.set, List.filter, hr, hr']
    | succ n =>
      simp only [List.get?] at hj
      cases hpa : p a <;>
        simp [List.set, List.filter, hpa, ih n r r' hj hr hr']

/-- C6: a project's derived status and progress ignore subtasks.  Changing
the `Status` cell (column 8) of any Tasks row whose `ParentTaskID`
(column 10) is non-empty leaves the whole outcome of
`recalcProjectProgress` — return value and written Projects sheet —
unchanged, whatever the new status. -/
theorem recalc_subtask_status_frame (pid : String) (ts ps : List Row) (j : Nat) (r : Row)
    (s : String) (hj : ts.get? j = some r) (hsub : col r 10 ≠ "") :
    recalcProjectProgress pid (ts.set j (r.set 8 s)) ps = recalcProjectProgress pid ts ps := by
  have h10 : col (r.set 8 s) 10 = col r 10 := by
    simp [col, List.getD_eq_getElem?_getD, List.getElem?_set_ne]
  have hmain : mainTaskRows pid (ts.set j (r.set 8 s)) = mainTaskRows pid ts := by
    refine filter_set_of_not _ ts j r (r.set 8 s) hj ?_ ?_
    · have hb : (col r 10 == "") = false := by simpa using hsub
      simp [hb]
    · have hb : (col (r.set 8 s) 10 == "") = false := by
        rw [h10]
        simpa using hsub
      simp [hb]
  simp only [recalcProjectProgress, hmain]

/-- Tasks sheet fixture: a main task and a subtask of `P1`, both `In Progress`. -/
def tasksWithSubtask : List Row :=
  [["P1", "p1", "Parent", "", "", "", "", "", "In Progress", "", ""],
   ["S1", "p1", "Sub", "", "", "", "", "", "In Progress", "", "P1"]]

/-- C6 witness: flipping the subtask `S1` to `Completed` leaves the
recalculation outcome for `p1` untouched. -/
theorem recalc_subtask_status_frame_w :
    recalcProjectProgress "p1"
        (tasksWithSubtask.set 1
          ((["S1", "p1", "Sub", "", "", "", "", "", "In Progress", "", "P1"] : Row).set 8
            "Completed")) projectsOne =
      recalcProjectProgress "p1" tasksWithSubtask projectsOne :=
  recalc_subtask_status_frame "p1" tasksWithSubtask projectsOne 1
    ["S1", "p1", "Sub", "", "", "", "", "", "In Progress", "", "P1"] "Completed"
    (by decide) (by decide)

/-- A project object as mapped from a Projects row
(`projectController.js`, `rowToProject`). -/
structure Project where
  id : String
  name : String
  owner : String
  description : String
  startDate : String
  endDate : String
  status : String
  progress : Nat
deriving Repr, DecidableEq

/-- The JSON body of a project-update request.  `none` models an absent
(`undefined`/`null`) field, which `??` falls through.  The body may carry
`status` and `progress`; the handler must ignore them. -/
structure ProjectUpdate where
  name : Option String := none
  owner : Option String := none
  description : Option String := none
  startDate : Option String := none
  endDate : Option String := none
  status : Option String := none
  progress : Option Nat := none
deriving Repr, DecidableEq

/-- `projectController.js` lines 47-63, `rowToProject`.  `Number(x) || 0`
on the progress cell is modelled by `String.toNat?` with fallback 0 (the
stored progress values are decimal naturals written by the backend). -/
def rowToProject (row : Row) : Project :=
  { id := col row 0, name := col row 1, owner := col row 2, description := col row 3,
    startDate := col row 4, endDate := col row 5, status := col row 6,
    progress := ((col row 7).toNat?).getD 0 }

/-- `projectController.js` lines 33-44, `projectToRow` (the numeric
progress cell is serialised to its decimal string). -/
def projectToRow (p : Project) : Row :=
  [p.id, p.name, p.owner, p.description, p.startDate, p.endDate,
   (if p.status == "" then "Not Started" else p.status), toString p.progress]

/-- `projectController.js` lines 127-179, `updateProject`.  Merges only the
five editable fields, keeps the stored status/progress, writes the merged
row back, then recalculates from the Tasks sheet.  Returns the HTTP status
together with the Projects sheet after both writes (`500` when the
recalculation throws, in which case only the merge write happened). -/
def updateProject (id : String) (update : ProjectUpdate) (projectRows taskRows : List Row) :
    Nat × List Row :=
  match projectRows.findIdx? (fun r => r.get? 0 == some id) with
  | none => (404, projectRows)
  | some index =>
    let existing := rowToProject (projectRows.getD index [])
    let merged : Project :=
      { id := existing.id,
        name := update.name.getD existing.name,
        owner := update.owner.getD existing.owner,
        description := update.description.getD existing.description,
        startDate := update.startDate.getD existing.startDate,
        endDate := update.endDate.getD existing.endDate,
        -- status and progress are NOT taken from the request body
        status := existing.status,
        progress := existing.progress }
    let rows1 := projectRows.set index (projectToRow merged)
    match recalcProjectProgress id taskRows rows1 with
    | .error _ => (500, rows1)
    | .ok (_, rows2) => (200, rows2)

/-- C5: the rows written by `updateProject` never depend on the `status`
and `progress` fields of the request body — replacing them by any other
caller-supplied values yields the identical outcome (same HTTP status,
same final Projects sheet). -/
theorem updateProject_ignores_status_progress (id : String) (update : ProjectUpdate)
    (s1 s2 : Option String) (p1 p2 : Option Nat) (projectRows taskRows : List Row) :
    updateProject id { update with status := s1, progress := p1 } projectRows taskRows =
      updateProject id { update with status := s2, progress := p2 } projectRows taskRows := rfl

/-- A task object as mapped from a Tasks row (`taskController.js`,
`rowToTask`). -/
structure TaskObj where
  id : String
  projectId : String
  title : String
  description : String
  assignedTo : String
  startDate : String
  endDate : String
  dueDate : String
  status : String
  attachments : List String
  parentTaskId : String
deriving Repr, DecidableEq

/-- `String.prototype.split(",")`, kernel-reducible: cut the character
list at every comma. -/
def splitCommaAux : List Char → List Char → List String
  | [], acc => [String.mk acc.reverse]
  | c :: rest, acc =>
    if c == ',' then String.mk acc.reverse :: splitCommaAux rest []
    else splitCommaAux rest (c :: acc)

/-- `s.split(",")` on a string. -/
def jsSplitComma (s : String) : List String :=
  splitCommaAux s.data []

/-- `list.join(", ")`, kernel-reducible. -/
def jsJoinComma : List String → String
  | [] => ""
  | [a] => a
  | a :: rest => a ++ ", " ++ jsJoinComma rest

/-- `taskController.js` lines 49-63, `rowToTask`. -/
def rowToTask (row : Row) : TaskObj :=
  { id := col row 0, projectId := col row 1, title := col row 2,
    description := col row 3, assignedTo := col row 4, startDate := col row 5,
    endDate := col row 6, dueDate := col row 7,
    status := colD row 8 "Not Started",
    attachments := if col row 9 == "" then [] else (jsSplitComma (col row 9)).map jsTrim,
    parentTaskId := col row 10 }

/-- `taskController.js` lines 30-44, `taskToRow`. -/
def taskToRow (t : TaskObj) : Row :=
  [t.id, t.projectId, t.title, t.description, t.assignedTo, t.startDate,
   t.endDate, t.dueDate, (if t.status == "" then "Not Started" else t.status),
   jsJoinComma t.attachments, t.parentTaskId]

/-- The JSON body of a task-update request; `none` models an absent field
(which `??` and the explicit `!== undefined` test fall through). -/
structure TaskUpdate where
  projectId : Option String := none
  title : Option String := none
  description : Option String := none
  assignedTo : Option String := none
  startDate : Option String := none
  endDate : Option String := none
  dueDate : Option String := none
  status : Option String := none
  attachments : Option (List String) := none
  parentTaskId : Option String := none
deriving Repr, DecidableEq

/-- `taskController.js` lines 261-399, `updateTask` (the store-affecting
core: merge and write the task row, run the subtask-completion cascade,
then recalculate the project; the e-mail sending is external fire-and-log
and touches no store state).  Returns the HTTP status, the Tasks sheet
after the writes, and the Projects sheet after the recalculation (kept
unchanged when the recalculation throws, yielding 500).

Note the faithful stale read in the cascade: the sibling scan
(`allSubtasks`, `completedSubtasks`) and the parent lookup run over
`rows`, the snapshot read *before* the merged row was written, so the
just-updated subtask is counted with its previous status. -/
def updateTask (id : String) (update : TaskUpdate) (taskRows projectRows : List Row) :
    Nat × List Row × List Row :=
  match taskRows.findIdx? (fun r => r.get? 0 == some id) with
  | none => (404, taskRows, projectRows)
  | some index =>
    let existing := rowToTask (taskRows.getD index [])
    let merged : TaskObj :=
      { id := existing.id,
        projectId := update.projectId.getD existing.projectId,
        title := update.title.getD existing.title,
        description := update.description.getD existing.description,
        assignedTo := update.assignedTo.getD existing.assignedTo,
        startDate := update.startDate.getD existing.startDate,
        endDate := update.endDate.getD existing.endDate,
        dueDate := update.dueDate.getD existing.dueDate,
        status := update.status.getD existing.status,
        attachments := update.attachments.getD existing.attachments,
        parentTaskId := update.parentTaskId.getD existing.parentTaskId }
    let rows1 := taskRows.set index (taskToRow merged)
    let rows2 :=
      if merged.parentTaskId != "" && jsToLower merged.status == "completed" then
        match taskRows.findIdx? (fun r => r.get? 0 == some merged.parentTaskId) with
        | none => rows1
        | some parentTaskIndex =>
          let parentTask := rowToTask (taskRows.getD parentTaskIndex [])
          let allSubtasks := taskRows.filter (fun r => col r 10 == merged.parentTaskId)
          let completedSubtasks :=
            allSubtasks.filter (fun r => jsToLower (col r 8) == "completed")
          if decide (allSubtasks.length > 0) &&
              completedSubtasks.length == allSubtasks.length &&
              jsToLower parentTask.status != "completed" then
            rows1.set parentTaskIndex (taskToRow { parentTask with status := "Completed" })
          else rows1
      else rows1
    match recalcProjectProgress merged.projectId rows2 projectRows with
    | .error _ => (500, rows2, projectRows)
    | .ok (_, ps2) => (200, rows2, ps2)

/-- Parent task fixture: main task `P1` of project `p1`, `In Progress`. -/
def parentRowFx : Row :=
  ["P1", "p1", "Parent", "", "", "", "", "", "In Progress", "", ""]

/-- Subtask fixture: subtask `S1` of parent `P1`, `In Progress`. -/
def subRowFx : Row :=
  ["S1", "p1", "Sub", "", "", "", "", "", "In Progress", "", "P1"]

/-- C3: completing the last (here: only) not-yet-completed subtask of `P1`
leaves the parent row untouched, because the cascade counts the
just-updated subtask with its stale pre-update status.  The claim (and
spec) require the parent to be auto-completed here. -/
theorem updateTask_lastSubtask_parent_unchanged :
    updateTask "S1" { status := some "Completed" } [parentRowFx, subRowFx] projectsOne =
        (200,
          [parentRowFx, ["S1", "p1", "Sub", "", "", "", "", "", "Completed", "", "P1"]],
          [["p1", "Proj", "owner@x.com", "", "", "", "In Progress", "0"]]) ∧
      col parentRowFx 8 = "In Progress" := by
  decide

/-- The JSON body of a task-creation request; `none` models an absent
field (`!t.title` is also triggered by an empty string). -/
structure NewTask where
  title : Option String := none
  projectId : Option String := none
  description : Option String := none
  assignedTo : Option String := none
  startDate : Option String := none
  endDate : Option String := none
  dueDate : Option String := none
  status : Option String := none
  attachments : Option (List String) := none
  parentTaskId : Option String := none
deriving Repr, DecidableEq

/-- `taskController.js` lines 160-227, `createTask` (store-affecting core;
the assignment e-mail is external fire-and-log).  `newId` stands for the
generated `Date.now()`-based id.  Returns the HTTP status, the error
message if any, the Tasks sheet, and the Projects sheet (`500` when the
recalculation throws, the appended task row remaining). -/
def createTask (t : NewTask) (newId : String) (taskRows projectRows : List Row) :
    Nat × Option String × List Row × List Row :=
  if t.title.getD "" == "" then
    (400, some "Task title is required", taskRows, projectRows)
  else if t.projectId.getD "" == "" then
    (400, some "projectId is required", taskRows, projectRows)
  else
    let task : TaskObj :=
      { id := newId,
        projectId := t.projectId.getD "",
        title := t.title.getD "",
        description := t.description.getD "",
        assignedTo := t.assignedTo.getD "",
        startDate := t.startDate.getD "",
        endDate := t.endDate.getD "",
        dueDate := t.dueDate.getD "",
        status := if t.status.getD "" == "" then "Not Started" else t.status.getD "",
        attachments := t.attachments.getD [],
        parentTaskId := t.parentTaskId.getD "" }
    let rows1 := taskRows ++ [taskToRow task]
    match recalcProjectProgress (t.projectId.getD "") rows1 projectRows with
    | .error e => (500, some e, rows1, projectRows)
    | .ok (_, ps2) => (201, none, rows1, ps2)

/-- C10: a creation request without a title or without a projectId is
answered with HTTP 400 and the corresponding error message; the Tasks
sheet gains no row and the Projects sheet sees no recalculation write. -/
theorem createTask_validation_rejects (t : NewTask) (newId : String) (ts ps : List Row)
    (h : t.title.getD "" = "" ∨ t.projectId.getD "" = "") :
    (createTask t newId ts ps).1 = 400 ∧
      (createTask t newId ts ps).2.2.1 = ts ∧
      (createTask t newId ts ps).2.2.2 = ps ∧
      ((createTask t newId ts ps).2.1 = some "Task title is required" ∨
        (createTask t newId ts ps).2.1 = some "projectId is required") := by
  by_cases ht : t.title.getD "" = ""
  · simp [createTask, ht]
  · rcases h with h | h
    · exact absurd h ht
    · simp [createTask, beq_iff_eq, ht, h]

/-- C10 witness: an entirely empty request body is rejected with 400 and
both sheets are untouched. -/
theorem createTask_validation_rejects_w :
    (createTask {} "id1" tasksWithSubtask projectsOne).1 = 400 ∧
      (createTask {} "id1" tasksWithSubtask projectsOne).2.2.1 = tasksWithSubtask ∧
      (createTask {} "id1" tasksWithSubtask projectsOne).2.2.2 = projectsOne ∧
      ((createTask {} "id1" tasksWithSubtask projectsOne).2.1 = some "Task title is required" ∨
        (createTask {} "id1" tasksWithSubtask projectsOne).2.1 = some "projectId is required") :=
  createTask_validation_rejects {} "id1" tasksWithSubtask projectsOne (Or.inl rfl)

/-- One entry of the `reminders` list pushed by the sweep. -/
structure Reminder where
  type : String
  task : String
  email : String
  dueDate : String
deriving Repr, DecidableEq

/-- The object returned by `sendTaskReminders`. -/
structure SweepResult where
  success : Bool
  remindersSent : Nat
  reminders : List Reminder
  message : String
deriving Repr, DecidableEq

/-- `reminderJob.js` lines 27-32: the project-name map (`projectMap`),
last duplicate key wins, `|| projectId` fallback on a missing or empty name. -/
def projectNameFor (projectRows : List Row) (projectId : String) : String :=
  match projectRows.reverse.find? (fun r => col r 0 == projectId) with
  | some r => if col r 1 == "" then projectId else col r 1
  | none => projectId

/-- Subject of the 2-days-before reminder e-mail. -/
def upcomingSubject (title : String) : String :=
  "⏰ Reminder: Task \"" ++ title ++ "\" is due in 2 days"

/-- Body of the 2-days-before reminder e-mail. -/
def upcomingText (title projectName dueDate status description : String) : String :=
  "Hello,\n\nThis is a friendly reminder that your task is due in 2 days:\n\nTask: " ++
    title ++ "\nProject: " ++ projectName ++ "\nDue Date: " ++ dueDate ++ "\nStatus: " ++
    status ++ "\n" ++ (if description == "" then "" else "Description: " ++ description) ++
    "\n\nPlease make sure to complete this task on time.\n\nBest regards,\nProject Management System"

/-- Subject of the 2-days-overdue reminder e-mail. -/
def overdueSubject (title : String) : String :=
  "⚠️ Overdue Reminder: Task \"" ++ title ++ "\" is 2 days overdue"

/-- Body of the 2-days-overdue reminder e-mail. -/
def overdueText (title projectName dueDate status description : String) : String :=
  "Hello,\n\nThis is an important reminder that your task is now 2 days overdue:\n\nTask: " ++
    title ++ "\nProject: " ++ projectName ++ "\nDue Date: " ++ dueDate ++
    " (2 days ago)\nStatus: " ++ status ++ "\n" ++
    (if description == "" then "" else "Description: " ++ description) ++
    "\n\nPlease update the task status or complete it as soon as possible.\n\nBest regards,\nProject Management System"

/-- `reminderJob.js` lines 41-126: the per-task body of the sweep loop.

`send to subject text` is the `sendEmail` dispatcher: `true` models
successful delivery, `false` models a thrown failure, which the
surrounding `try`/`catch` swallows (log and `continue`), so a failing
dispatch contributes no reminder and no counter increment but never
escapes the loop.  `parseDate` models `new Date(x)` normalised to local
midnight as a day number; `none` is an invalid date, whose NaN day
difference matches neither offset.

Faithfully to the source (and its stale 8-column comment on line 40), the
due date is read from column 5 — which in the live Tasks schema is
`StartDate` — and the status from column 6 — which is `EndDate`. -/
def remindersForRow (today : Int) (parseDate : String → Option Int)
    (send : String → String → String → Bool) (projectRows : List Row) (r : Row) :
    List Reminder :=
  let projectId := col r 1
  let title := col r 2
  let description := col r 3
  let assignedTo := col r 4
  let dueDate := col r 5
  let status := jsTrim (colD r 6 "Not Started")
  if dueDate == "" || assignedTo == "" || jsToLower status == "completed" then []
  else
    match parseDate dueDate with
    | none => []
    | some due =>
      let diffDays : Int := due - today
      let projectName := projectNameFor projectRows projectId
      (if diffDays == 2 then
        (if send assignedTo (upcomingSubject title)
            (upcomingText title projectName dueDate status description) then
          [{ type := "2-day-before", task := title, email := assignedTo, dueDate := dueDate }]
        else [])
      else []) ++
      (if diffDays == -2 then
        (if send assignedTo (overdueSubject title)
            (overdueText title projectName dueDate status description) then
          [{ type := "2-day-overdue", task := title, email := assignedTo, dueDate := dueDate }]
        else [])
      else [])

/-- `reminderJob.js` lines 12-137, `sendTaskReminders`: empty-sheet early
return, then the loop over all task rows accumulating `remindersSent` and
`reminders`, then the summary result.  The outer `catch` (sheet read
failure) cannot fire in this pure embedding, so `success` reports the
loop's completion. -/
def sendTaskReminders (today : Int) (parseDate : String → Option Int)
    (send : String → String → String → Bool) (taskRows projectRows : List Row) :
    SweepResult :=
  if taskRows.isEmpty then
    { success := true, remindersSent := 0, reminders := [], message := "No tasks found." }
  else
    let acc := taskRows.foldl
      (fun acc r =>
        let rs := remindersForRow today parseDate send projectRows r
        (acc.1 + rs.length, acc.2 ++ rs))
      (0, ([] : List Reminder))
    { success := true, remindersSent := acc.1, reminders := acc.2,
      message := "Reminder job completed. Sent " ++ toString acc.1 ++ " reminder(s)." }

/-- The concatenation of each row's reminders, in sheet order. -/
def remindersOf (f : Row → List Reminder) (rows : List Row) : List Reminder :=
  rows.foldr (fun r acc => f r ++ acc) []

/-- The sweep loop is a running concatenation of the per-row results. -/
theorem sweepLoop_eq (f : Row → List Reminder) :
    ∀ (l : List Row) (n : Nat) (a : List Reminder),
      l.foldl (fun acc r => (acc.1 + (f r).length, acc.2 ++ f r)) (n, a) =
        (n + (remindersOf f l).length, a ++ remindersOf f l) := by
  intro l
  induction l with
  | nil =>
    intro n a
    simp [remindersOf]
  | cons r t ih =>
    intro n a
    simp only [List.foldl, remindersOf, List.foldr] at ih ⊢
    rw [ih]
    simp [List.length_append, Nat.add_assoc, List.append_assoc]

/-- C8: the sweep is total for every dispatch oracle, including one that
fails (throws) on any subset of calls: it always reports `success = true`,
its `remindersSent` counter equals the number of reminders actually
dispatched, and its reminder list is exactly the concatenation of every
row's own contribution — so a failing dispatch for one task (an empty
contribution) removes nothing from, and aborts none of, the other rows. -/
theorem sweep_never_aborts (today : Int) (parseDate : String → Option Int)
    (send : String → String → String → Bool) (taskRows projectRows : List Row) :
    (sendTaskReminders today parseDate send taskRows projectRows).success = true ∧
      (sendTaskReminders today parseDate send taskRows projectRows).remindersSent =
        (sendTaskReminders today parseDate send taskRows projectRows).reminders.length ∧
      (sendTaskReminders today parseDate send taskRows projectRows).reminders =
        remindersOf (remindersForRow today parseDate send projectRows) taskRows := by
  cases taskRows with
  | nil => simp [sendTaskReminders, remindersOf]
  | cons r t =>
    simp only [sendTaskReminders, List.isEmpty_cons, if_neg Bool.false_ne_true]
    rw [sweepLoop_eq]
    simp

/-- Task row fixture for the sweep: `DueDate` (column 7) parses to
today + 2, `Status` (column 8) is `In Progress`, assignee present;
`StartDate` (column 5) is five days out and `EndDate` (column 6) seven. -/
def taskDueIn2 : Row :=
  ["t1", "p1", "T", "", "a@x.com", "D+5", "D+7", "D+2", "In Progress", "", ""]

/-- Date-string table for the fixtures (day numbers relative to today = 0). -/
def parseDateFx : String → Option Int :=
  fun s =>
    if s == "D+2" then some 2
    else if s == "D+5" then some 5
    else if s == "D+7" then some 7
    else none

/-- C2: a task whose real `DueDate` column (index 7) is exactly two days
out, with status `In Progress` (index 8) and an assignee, triggers no
dispatch at all — because the sweep reads the due date from column 5
(`StartDate`) and the status from column 6 (`EndDate`).  The claim (and
the Tasks schema used everywhere else) requires exactly one "upcoming
due" dispatch here. -/
theorem sweep_reads_wrong_columns :
    (sendTaskReminders 0 parseDateFx (fun _ _ _ => true) [taskDueIn2] []).remindersSent = 0 ∧
      (sendTaskReminders 0 parseDateFx (fun _ _ _ => true) [taskDueIn2] []).reminders = [] ∧
      col taskDueIn2 7 = "D+2" ∧ parseDateFx "D+2" = some 2 ∧
      col taskDueIn2 8 = "In Progress" ∧ col taskDueIn2 4 = "a@x.com" := by
  decide

/-- Modelled from the spec: the Interval Overlap Detector's source file
(`frontend/src/utils/taskOverlap.js`, imported by `GanttChart.jsx`) is not
part of this snapshot, so `datesOverlap` follows spec section 4.3 —
closed intervals, `start1 ≤ end2 AND start2 ≤ end1`, touching endpoints
overlap.  Dates are day numbers. -/
def datesOverlap (start1 end1 start2 end2 : Int) : Bool :=
  decide (start1 ≤ end2) && decide (start2 ≤ end1)

/-- A task as seen by the Gantt chart: identifier and optional parsed
start/end dates (`none` models a missing or unparsable date string). -/
structure GanttTask where
  id : String
  startDate : Option Int
  endDate : Option Int
deriving Repr, DecidableEq

/-- Modelled from the spec (section 4.3): `tasksOverlap` delegates to the
date check and returns `false` when either task misses a start or an end
date. -/
def tasksOverlap (a b : GanttTask) : Bool :=
  match a.startDate, a.endDate, b.startDate, b.endDate with
  | some s1, some e1, some s2, some e2 => datesOverlap s1 e1 s2 e2
  | _, _, _, _ => false

/-- C9: `tasksOverlap` is symmetric on all tasks (also when dates are
missing), and for tasks with well-formed present date ranges, an end
touching the other task's start counts as overlapping. -/
theorem tasksOverlap_symm_touching :
    (∀ a b : GanttTask, tasksOverlap a b = tasksOverlap b a) ∧
      ∀ (a b : GanttTask) (s1 e1 s2 e2 : Int),
        a.startDate = some s1 → a.endDate = some e1 →
        b.startDate = some s2 → b.endDate = some e2 →
        s1 ≤ e1 → s2 ≤ e2 → e1 = s2 → tasksOverlap a b = true := by
  constructor
  · intro a b
    obtain ⟨ia, sa, ea⟩ := a
    obtain ⟨ib, sb, eb⟩ := b
    cases sa <;> cases ea <;> cases sb <;> cases eb <;>
      simp [tasksOverlap, datesOverlap, Bool.and_comm]
  · intro a b s1 e1 s2 e2 hs1 he1 hs2 he2 hw1 hw2 htouch
    simp only [tasksOverlap, hs1, he1, hs2, he2, datesOverlap, Bool.and_eq_true,
      decide_eq_true_eq]
    omega

/-- C9 witness: `[0,5]` and `[5,9]` touch at `5` and are reported as
overlapping. -/
theorem tasksOverlap_symm_touching_w :
    tasksOverlap ⟨"A", some 0, some 5⟩ ⟨"B", some 5, some 9⟩ = true :=
  tasksOverlap_symm_touching.2 ⟨"A", some 0, some 5⟩ ⟨"B", some 5, some 9⟩ 0 5 5 9
    rfl rfl rfl rfl (by decide) (by decide) rfl
